import Mathlib

/-!
Shallow embedding of the corn-care backend (src/backend/app.py): a Flask
service exposing a maize-leaf-disease classifier.  Pure Python functions
become Lean functions; the external PIL primitives (decode, convert,
resize) and the external Keras classifier are passed as parameters; the
random draws of the mock predictor are passed explicitly.  Python floats
are modelled as exact rationals; Python `round(x, 3)` is modelled as
round-half-to-even on rationals.
-/

namespace CornCare

/-- Constant `ALLOWED_EXTENSIONS` from app.py, the set of the four
extensions png, jpg, jpeg, gif
(filenames and extensions are modelled as lists of characters). -/
def ALLOWED_EXTENSIONS : List (List Char) :=
  [['p','n','g'], ['j','p','g'], ['j','p','e','g'], ['g','i','f']]

/-- Constant `DISEASE_CLASSES` from app.py: the insertion-ordered dict
`0 ↦ Healthy, 1 ↦ Northern Corn Leaf Blight, 2 ↦ Common Rust,
3 ↦ Gray Leaf Spot`, as an association list. -/
def DISEASE_CLASSES : List (Nat × String) :=
  [(0, "Healthy"),
   (1, "Northern Corn Leaf Blight"),
   (2, "Common Rust"),
   (3, "Gray Leaf Spot")]

/-- Python dict indexing `DISEASE_CLASSES[i]` (raises `KeyError`,
hence `Option`). -/
def diseaseClass? (i : Nat) : Option String :=
  DISEASE_CLASSES.lookup i

/-- Python `s.rsplit('.', 1)`: split at the last occurrence of `'.'`,
returning the whole string when `'.'` does not occur. -/
def rsplitDot1 (s : List Char) : List (List Char) :=
  if '.' ∈ s then
    let after := (s.reverse.takeWhile (fun c => c ≠ '.')).reverse
    let before := s.take (s.length - after.length - 1)
    [before, after]
  else [s]

/-- Function `allowed_file` from app.py:
`'.' in filename and filename.rsplit('.', 1)[1].lower() in ALLOWED_EXTENSIONS`. -/
def allowed_file (filename : List Char) : Bool :=
  filename.contains '.' &&
    ALLOWED_EXTENSIONS.contains (((rsplitDot1 filename).getD 1 []).map Char.toLower)

/-- Function `get_severity_level` from app.py. -/
def get_severity_level (confidence : ℚ) (disease_name : String) : String :=
  if disease_name = "Healthy" then
    "None"
  else if confidence ≥ 0.8 then
    "High"
  else if confidence ≥ 0.6 then
    "Medium"
  else
    "Low"

/-- The `descriptions` dict inside `get_disease_description` in app.py. -/
def descriptions : List (String × String) :=
  [("Healthy", "The leaf appears healthy with no visible signs of disease. Continue regular monitoring and preventive care to maintain plant health."),
   ("Northern Corn Leaf Blight", "A fungal disease caused by Exserohilum turcicum that creates elongated, grayish-green to tan lesions on corn leaves. It can significantly reduce yield if left untreated, especially in humid conditions."),
   ("Common Rust", "A fungal disease caused by Puccinia sorghi, characterized by small, reddish-brown pustules on both leaf surfaces. Most common in moderate temperature (60-77Â°F) and high humidity conditions."),
   ("Gray Leaf Spot", "A fungal disease caused by Cercospora zeae-maydis that creates rectangular lesions with parallel sides on corn leaves. It thrives in warm, humid conditions and can cause significant yield loss.")]

/-- Function `get_disease_description` from app.py:
`descriptions.get(disease_name, 'Unknown disease detected.')`. -/
def get_disease_description (disease_name : String) : String :=
  (descriptions.lookup disease_name).getD "Unknown disease detected."

/-- One nanoparticle treatment record from app.py. -/
structure Treatment where
  name : String
  type : String
  concentration : String
  effectiveness : String
  application : String
deriving DecidableEq

/-- The `recommendations` dict inside `get_nanoparticle_recommendations`
in app.py. -/
def recommendations : List (String × List Treatment) :=
  [("Healthy",
    [⟨"Silica Nanoparticles", "Oxide-based", "100-150 ppm", "N/A (Preventive)",
      "Preventive foliar spray monthly to boost plant immunity"⟩]),
   ("Northern Corn Leaf Blight",
    [⟨"Copper Nanoparticles", "Metal-based", "50-100 ppm", "95%",
      "Foliar spray every 7-10 days during disease development"⟩,
     ⟨"Silver Nanoparticles", "Metal-based", "25-50 ppm", "88%",
      "Root zone application twice weekly for systemic effect"⟩,
     ⟨"Chitosan-Silver Hybrid NPs", "Bio-metallic", "75-125 ppm", "92%",
      "Targeted spray on infected areas with 5-day intervals"⟩]),
   ("Common Rust",
    [⟨"Silica Nanoparticles", "Oxide-based", "200-300 ppm", "82%",
      "Preventive foliar spray bi-weekly during rust season"⟩,
     ⟨"Zinc Oxide Nanoparticles", "Oxide-based", "75-150 ppm", "78%",
      "Soil amendment and foliar spray combination"⟩,
     ⟨"Magnesium Oxide NPs", "Oxide-based", "100-200 ppm", "85%",
      "Early morning foliar application for best absorption"⟩]),
   ("Gray Leaf Spot",
    [⟨"Titanium Dioxide Nanoparticles", "Oxide-based", "100-200 ppm", "85%",
      "UV-activated foliar treatment during sunny periods"⟩,
     ⟨"Copper-Silver Hybrid NPs", "Bimetallic", "40-80 ppm", "92%",
      "Targeted spray on affected areas every 5-7 days"⟩,
     ⟨"Selenium Nanoparticles", "Metalloid-based", "20-40 ppm", "89%",
      "Foliar spray with surfactant for enhanced penetration"⟩])]

/-- Function `get_nanoparticle_recommendations` from app.py:
`recommendations.get(disease_name, [])`. -/
def get_nanoparticle_recommendations (disease_name : String) : List Treatment :=
  (recommendations.lookup disease_name).getD []

/-- A uint8 RGB pixel: PIL images in mode RGB carry three 8-bit channels. -/
abbrev Px : Type := Fin 256 × Fin 256 × Fin 256

/-- A PIL image already in mode RGB: a grid of uint8 RGB pixels
(rows of pixels). -/
structure RGBImage where
  rows : List (List Px)

/-- A decoded PIL image: its color `mode` string, and (meaningful when
`mode = "RGB"`) its uint8 pixel grid.  Non-RGB pixel data is never read
by the code below: app.py converts to RGB first. -/
structure PILImage where
  mode : String
  rgb : RGBImage

/-- The normalized 4-D tensor produced by `preprocess_image`:
batch of planes of rows of RGB triples of rationals. -/
abbrev Tensor : Type := List (List (List (ℚ × ℚ × ℚ)))

/-- Step `img_array.astype('float32') / 255.0` of `preprocess_image`:
scale every uint8 channel value to a rational in steps of 1/255. -/
def normalizeRows (rows : List (List Px)) : List (List (ℚ × ℚ × ℚ)) :=
  rows.map (fun row => row.map (fun p =>
    ((p.1 : ℚ) / 255, (p.2.1 : ℚ) / 255, (p.2.2 : ℚ) / 255)))

/-- Function `preprocess_image` from app.py, parametrized by the external PIL
primitives `convert` (`image.convert('RGB')`) and `resize`
(`image.resize(target_size)`): convert to RGB when the mode is not RGB,
resize, scale to [0,1], and prepend a batch axis (`np.expand_dims`). -/
def preprocess_image (convert : PILImage → RGBImage)
    (resize : RGBImage → Nat × Nat → RGBImage)
    (image : PILImage) (target_size : Nat × Nat) : Tensor :=
  let img := if image.mode ≠ "RGB" then convert image else image.rgb
  let resized := resize img target_size
  [normalizeRows resized.rows]

/-- The random draws consumed by `mock_prediction` in app.py:
`class_idx = random.randint(0, 3)`, `confidence = random.uniform(0.7, 0.98)`,
and one `random.uniform(0.01, 0.3)` draw per non-chosen position. -/
structure MockDraws where
  class_idx : Nat
  confidence : ℚ
  other : Nat → ℚ

/-- Function `mock_prediction` from app.py (the inner row of the returned
`np.array([[...]])`): `confidence if i == class_idx else uniform(0.01, 0.3)`
for `i in range(4)`. -/
def mock_prediction (d : MockDraws) : List ℚ :=
  (List.range 4).map (fun i => if i = d.class_idx then d.confidence else d.other i)

/-- Python `round(x, 3)` modelled on exact rationals: round
`x * 1000` half-to-even to an integer, then divide by 1000. -/
def pyRoundInt (q : ℚ) : ℤ :=
  if q - ⌊q⌋ < 1/2 then ⌊q⌋
  else if 1/2 < q - ⌊q⌋ then ⌊q⌋ + 1
  else if 2 ∣ ⌊q⌋ then ⌊q⌋ else ⌊q⌋ + 1

/-- Python `round(x, 3)` from app.py (on exact rationals). -/
def round3 (q : ℚ) : ℚ := (pyRoundInt (q * 1000) : ℚ) / 1000

/-- Loop of `np.argmax` over the tail of a score row: index `i` is the index of
the next element to examine, `bi`/`bv` the best index and value so far;
ties keep the earlier index, as with `np.argmax`. -/
def argmaxAux : Nat → Nat → ℚ → List ℚ → Nat
  | _, bi, _, [] => bi
  | i, bi, bv, v :: vs =>
    if bv < v then argmaxAux (i + 1) i v vs else argmaxAux (i + 1) bi bv vs

/-- Call `np.argmax(predictions[0])`: first index of the maximum; `np.argmax`
of an empty sequence raises, hence `Option`. -/
def argmaxIdx : List ℚ → Option Nat
  | [] => none
  | v :: vs => some (argmaxAux 1 0 v vs)

/-- The success body assembled by `predict_disease` in app.py
(`all_predictions` as an insertion-ordered association list). -/
structure SuccessBody where
  disease : String
  confidence : ℚ
  severity : String
  description : String
  nanoparticles : List Treatment
  all_predictions : List (String × ℚ)
deriving DecidableEq

/-- The dict comprehension
`{DISEASE_CLASSES[i]: round(float(predictions[0][i]), 3) for i in range(len(predictions[0]))}`
over an explicit list of indices; a missing key raises `KeyError`. -/
def allPredsFrom (scores : List ℚ) : List Nat → Except String (List (String × ℚ))
  | [] => Except.ok []
  | i :: is =>
    match diseaseClass? i with
    | none => Except.error ("KeyError: " ++ toString i)
    | some n =>
      match allPredsFrom scores is with
      | Except.error e => Except.error e
      | Except.ok rest => Except.ok ((n, round3 (scores.getD i 0)) :: rest)

/-- The `all_predictions` dict of `predict_disease`. -/
def allPreds (scores : List ℚ) : Except String (List (String × ℚ)) :=
  allPredsFrom scores (List.range scores.length)

/-- Lines 225-249 of app.py: from the classifier's score row, take the
argmax index and its score, look up the class name, derive severity,
description and recommendations, and assemble the response; any raise
(empty scores, missing class index) propagates to the surrounding
`except`. -/
def computeResponse (scores : List ℚ) : Except String SuccessBody :=
  match argmaxIdx scores with
  | none => Except.error "attempt to get argmax of an empty sequence"
  | some predicted_class_idx =>
    let confidence := scores.getD predicted_class_idx 0
    match diseaseClass? predicted_class_idx with
    | none => Except.error ("KeyError: " ++ toString predicted_class_idx)
    | some disease_name =>
      match allPreds scores with
      | Except.error e => Except.error e
      | Except.ok preds =>
        Except.ok
          { disease := disease_name
            confidence := round3 confidence
            severity := get_severity_level confidence disease_name
            description := get_disease_description disease_name
            nanoparticles := get_nanoparticle_recommendations disease_name
            all_predictions := preds }

/-- The external Keras model's `predict`, restricted to the score row
`predictions[0]`; inference may raise. -/
abbrev Classifier : Type := Tensor → Except String (List ℚ)

/-- The uploaded file of the multipart field `image`: its filename and
its raw bytes (of abstract type `β`). -/
structure UploadedFile (β : Type) where
  filename : List Char
  content : β

/-- A POST /predict request, abstracted to the only part the handler
reads: the multipart field `image`, absent or present. -/
structure PredictRequest (β : Type) where
  image : Option (UploadedFile β)

/-- A response body: `{error: msg}` or the success JSON. -/
inductive RespBody where
  | error (msg : String)
  | success (body : SuccessBody)
deriving DecidableEq

/-- The handler's observable outcome: HTTP status, body, and
instrumentation flags recording whether the image decoder
(`Image.open`, line 211) and the classifier (`model.predict`, line 219)
were invoked. -/
structure HandlerResult where
  status : Nat
  body : RespBody
  decoderInvoked : Bool
  classifierInvoked : Bool
deriving DecidableEq

/-- Function `predict_disease` from app.py, parametrized by the external PIL
decode (`Image.open` on the uploaded bytes, `imageOpen`), the PIL
`convert`/`resize` primitives, the optional loaded model, and the mock
predictor's random draws (consumed only when the model is absent). -/
def predict_disease {β : Type} (imageOpen : β → Except String PILImage)
    (convert : PILImage → RGBImage) (resize : RGBImage → Nat × Nat → RGBImage)
    (model : Option Classifier) (draws : MockDraws)
    (req : PredictRequest β) : HandlerResult :=
  match req.image with
  | none => ⟨400, RespBody.error "No image file provided", false, false⟩
  | some file =>
    if file.filename = [] then
      ⟨400, RespBody.error "No file selected", false, false⟩
    else if !allowed_file file.filename then
      ⟨400, RespBody.error "Invalid file type. Please upload PNG, JPG, JPEG, or GIF", false, false⟩
    else
      match imageOpen file.content with
      | Except.error e =>
        ⟨400, RespBody.error ("Error processing image: " ++ e), true, false⟩
      | Except.ok image =>
        let processed_image := preprocess_image convert resize image (224, 224)
        match model with
        | some m =>
          match m processed_image with
          | Except.error e =>
            ⟨500, RespBody.error ("Error during prediction: " ++ e), true, true⟩
          | Except.ok scores =>
            match computeResponse scores with
            | Except.error e =>
              ⟨500, RespBody.error ("Error during prediction: " ++ e), true, true⟩
            | Except.ok body => ⟨200, RespBody.success body, true, true⟩
        | none =>
          match computeResponse (mock_prediction draws) with
          | Except.error e =>
            ⟨500, RespBody.error ("Error during prediction: " ++ e), true, false⟩
          | Except.ok body => ⟨200, RespBody.success body, true, false⟩

/-- The JSON returned by `GET /` (the `home` route). -/
structure HomeResponse where
  status : String
  message : String
  model_loaded : Bool
deriving DecidableEq

/-- Function `home` from app.py: health check reporting whether the model loaded. -/
def home (model : Option Classifier) : HomeResponse :=
  ⟨"running", "Maize Disease Detection API", model.isSome⟩

/-- One entry of the `GET /diseases` response. -/
structure DiseaseInfo where
  id : Nat
  name : String
  description : String
  nanoparticle_treatments : List Treatment
deriving DecidableEq

/-- The JSON returned by `GET /diseases`. -/
structure DiseasesResponse where
  diseases : List DiseaseInfo
  total_classes : Nat
deriving DecidableEq

/-- Function `get_disease_info` from app.py: one entry per `DISEASE_CLASSES`
item, in order, plus `total_classes`. -/
def get_disease_info : DiseasesResponse :=
  { diseases := DISEASE_CLASSES.map (fun p =>
      { id := p.1
        name := p.2
        description := get_disease_description p.2
        nanoparticle_treatments := get_nanoparticle_recommendations p.2 })
    total_classes := DISEASE_CLASSES.length }

/-! ### Concrete instances of the external parameters, used to
instantiate the theorems below on runnable inputs. -/

/-- A concrete decoded RGB image. -/
def samplePIL : PILImage := ⟨"RGB", ⟨[]⟩⟩

/-- A decode step that succeeds with `samplePIL`. -/
def sampleOpen : Unit → Except String PILImage := fun _ => Except.ok samplePIL

/-- A decode step that fails, as `Image.open` does on corrupt bytes. -/
def sampleOpenFail : Unit → Except String PILImage :=
  fun _ => Except.error "cannot identify image file"

/-- A concrete PIL `convert` instance. -/
def sampleConvert : PILImage → RGBImage := fun i => i.rgb

/-- A concrete PIL `resize` instance that honours the target size. -/
def sampleResize : RGBImage → Nat × Nat → RGBImage :=
  fun _ sz => ⟨List.replicate sz.2 (List.replicate sz.1 (0, 0, 0))⟩

/-- Concrete random draws for the mock predictor. -/
def sampleDraws : MockDraws := ⟨0, 4/5, fun _ => 1/10⟩

/-- A concrete classifier returning a fixed score row. -/
def sampleModel : Classifier := fun _ => Except.ok [1/10, 9/10, 1/20, 1/50]

/-- A classifier whose inference raises. -/
def sampleModelFail : Classifier := fun _ => Except.error "tensor shape mismatch"

/-- A concrete valid upload. -/
def sampleFile : UploadedFile Unit := ⟨"leaf.png".toList, ()⟩

/-- A concrete request carrying `sampleFile`. -/
def sampleReq : PredictRequest Unit := ⟨some sampleFile⟩

/-! ## Theorems -/

/-- C1: the severity of every prediction follows the rule
`Healthy → None; confidence ≥ 0.8 → High; confidence ≥ 0.6 → Medium;
else Low`, and severity is `None` exactly when the disease is `Healthy`. -/
theorem severity_rule_spec (c : ℚ) (d : String) :
    get_severity_level c d =
      (if d = "Healthy" then "None"
       else if c ≥ 0.8 then "High"
       else if c ≥ 0.6 then "Medium"
       else "Low") ∧
    (get_severity_level c d = "None" ↔ d = "Healthy") := by
  refine ⟨rfl, ?_⟩
  unfold get_severity_level
  split_ifs with h1 h2 h3 <;> simp_all

/-- C1 witness: concrete evaluations of the severity rule. -/
theorem severity_rule_spec_witness :
    (get_severity_level 0.75 "Common Rust" =
      (if "Common Rust" = "Healthy" then "None"
       else if (0.75 : ℚ) ≥ 0.8 then "High"
       else if (0.75 : ℚ) ≥ 0.6 then "Medium"
       else "Low")) ∧
    (get_severity_level 0.75 "Common Rust" = "None" ↔ "Common Rust" = "Healthy") :=
  severity_rule_spec 0.75 "Common Rust"

/-- C5 counterexample: for an unrecognized disease name the description
default is not the spec's string "Unknown disease." -/
theorem unknown_disease_default_counterexample :
    get_disease_description "Maize Streak Virus" ≠ "Unknown disease." ∧
    get_disease_description "Maize Streak Virus" = "Unknown disease detected." := by
  exact ⟨by decide, by decide⟩

/-- C5 (amended): for every name outside the four configured classes,
the description lookup returns "Unknown disease detected." and the
treatment lookup returns the empty list; both lookups are total. -/
theorem unknown_disease_defaults (n : String)
    (h : n ∉ ["Healthy", "Northern Corn Leaf Blight", "Common Rust", "Gray Leaf Spot"]) :
    get_disease_description n = "Unknown disease detected." ∧
    get_nanoparticle_recommendations n = [] := by
  simp only [List.mem_cons, List.mem_singleton, not_or] at h
  obtain ⟨h1, h2, h3, h4⟩ := h
  constructor
  · simp [get_disease_description, descriptions, List.lookup,
      beq_eq_false_iff_ne.mpr h1, beq_eq_false_iff_ne.mpr h2,
      beq_eq_false_iff_ne.mpr h3, beq_eq_false_iff_ne.mpr h4.1]
  · simp [get_nanoparticle_recommendations, recommendations, List.lookup,
      beq_eq_false_iff_ne.mpr h1, beq_eq_false_iff_ne.mpr h2,
      beq_eq_false_iff_ne.mpr h3, beq_eq_false_iff_ne.mpr h4.1]

/-- C5 witness: the defaults at a concrete unrecognized name. -/
theorem unknown_disease_defaults_witness :
    get_disease_description "Maize Dwarf Mosaic" = "Unknown disease detected." ∧
    get_nanoparticle_recommendations "Maize Dwarf Mosaic" = [] :=
  unknown_disease_defaults "Maize Dwarf Mosaic" (by decide)

set_option maxRecDepth 8192 in
/-- C8: `GET /diseases` returns one entry per configured class, in
order, with `id` equal to the class's classifier output index and the
description and treatments of that class, plus `total_classes = 4`. -/
theorem diseases_endpoint_spec :
    get_disease_info.diseases.map (fun e => (e.id, e.name)) = DISEASE_CLASSES ∧
    get_disease_info.diseases.length = DISEASE_CLASSES.length ∧
    (∀ e ∈ get_disease_info.diseases,
      e.description = get_disease_description e.name ∧
      e.nanoparticle_treatments = get_nanoparticle_recommendations e.name) ∧
    get_disease_info.total_classes = DISEASE_CLASSES.length ∧
    get_disease_info.total_classes = 4 := by
  refine ⟨by decide, by decide, ?_, rfl, rfl⟩
  decide

/-- Helper: the dot-free prefix taken by `takeWhile` contains no dot. -/
lemma not_dot_mem_takeWhile (r : List Char) :
    '.' ∉ r.takeWhile (fun c => c ≠ '.') := by
  intro hm
  have := List.mem_takeWhile_imp hm
  simp at this

/-- Helper: a list containing a dot splits as its dot-free `takeWhile`
prefix, the first dot, and a remainder. -/
lemma dropWhile_dot (r : List Char) (h : '.' ∈ r) :
    ∃ s, r.dropWhile (fun c => c ≠ '.') = '.' :: s := by
  induction r with
  | nil => cases h
  | cons a t ih =>
    by_cases ha : a = '.'
    · subst ha
      exact ⟨t, by simp [List.dropWhile_cons]⟩
    · rcases List.mem_cons.mp h with h1 | h2
      · exact absurd h1.symm ha
      · obtain ⟨s, hs⟩ := ih h2
        exact ⟨s, by simpa [List.dropWhile_cons, ha] using hs⟩

/-- Helper: `takeWhile (≠ '.')` on a dot-free list followed by a dot
returns exactly that list. -/
lemma takeWhile_ne_append (l m : List Char) (h : '.' ∉ l) :
    (l ++ '.' :: m).takeWhile (fun c => c ≠ '.') = l := by
  induction l with
  | nil => simp [List.takeWhile_cons]
  | cons a t ih =>
    simp only [List.mem_cons, not_or] at h
    have ha : a ≠ '.' := fun e => h.1 e.symm
    simpa [List.takeWhile_cons, ha] using ih h.2

/-- C9: `allowed_file` accepts a filename exactly when it splits as
`p ++ '.' :: t` with `t` dot-free (so `t` is the substring after the
last dot) and `t` lowercased is one of the allowed extensions; in
particular the check is case-insensitive and examines only the final
extension. -/
theorem allowed_file_spec (f : List Char) :
    (allowed_file f = true ↔
      ∃ p t, f = p ++ '.' :: t ∧ '.' ∉ t ∧
        t.map Char.toLower ∈ ALLOWED_EXTENSIONS) ∧
    allowed_file "leaf.JPG".toList = true ∧
    allowed_file "leaf.png.bmp".toList = false ∧
    allowed_file "leaf.bmp.png".toList = true := by
  refine ⟨?_, by decide, by decide, by decide⟩
  constructor
  · intro hall
    rw [allowed_file, Bool.and_eq_true] at hall
    obtain ⟨hdot, hmem⟩ := hall
    have hdotm : '.' ∈ f := by simpa using hdot
    have hdotr : '.' ∈ f.reverse := by simpa using hdotm
    obtain ⟨s, hs⟩ := dropWhile_dot f.reverse hdotr
    have hsplit : f.reverse =
        f.reverse.takeWhile (fun c => c ≠ '.') ++ '.' :: s := by
      conv_lhs => rw [← List.takeWhile_append_dropWhile
        (p := fun c => decide (c ≠ '.')) (l := f.reverse)]
      rw [hs]
    refine ⟨s.reverse, (f.reverse.takeWhile (fun c => c ≠ '.')).reverse, ?_, ?_, ?_⟩
    · have := congrArg List.reverse hsplit
      simpa [List.reverse_append] using this
    · simpa using not_dot_mem_takeWhile f.reverse
    · rw [rsplitDot1, if_pos hdotm] at hmem
      simpa using hmem
  · rintro ⟨p, t, rfl, hnd, hmem⟩
    have hdotm : '.' ∈ p ++ '.' :: t := by simp
    rw [allowed_file, Bool.and_eq_true]
    refine ⟨by simp, ?_⟩
    rw [rsplitDot1, if_pos hdotm]
    have hrev : (p ++ '.' :: t).reverse = t.reverse ++ '.' :: p.reverse := by
      simp [List.reverse_append]
    have hnt : '.' ∉ t.reverse := by simpa using hnd
    have htw : ((p ++ '.' :: t).reverse.takeWhile (fun c => c ≠ '.')).reverse = t := by
      rw [hrev, takeWhile_ne_append _ _ hnt, List.reverse_reverse]
    show ALLOWED_EXTENSIONS.contains
      ((((p ++ '.' :: t).reverse.takeWhile (fun c => c ≠ '.')).reverse).map Char.toLower) = true
    rw [htw]
    simpa using hmem

/-- C9 witness: the characterization at a concrete accepted filename. -/
theorem allowed_file_spec_witness :
    ∃ p t, "leaf.bmp.png".toList = p ++ '.' :: t ∧ '.' ∉ t ∧
      t.map Char.toLower ∈ ALLOWED_EXTENSIONS :=
  ((allowed_file_spec "leaf.bmp.png".toList).1).mp (by decide)

/-- Helper: half-to-even rounding never rounds below the floor. -/
lemma floor_le_pyRoundInt (q : ℚ) : ⌊q⌋ ≤ pyRoundInt q := by
  unfold pyRoundInt
  split_ifs <;> omega

/-- Helper: `round(x, 3)` of a value at least 0.7 is at least 0.7. -/
lemma round3_ge_07 (q : ℚ) (h : (0.7 : ℚ) ≤ q) : (0.7 : ℚ) ≤ round3 q := by
  have hfl : (700 : ℤ) ≤ ⌊q * 1000⌋ := by
    rw [Int.le_floor]
    push_cast
    linarith
  have hpr : (700 : ℤ) ≤ pyRoundInt (q * 1000) :=
    le_trans hfl (floor_le_pyRoundInt _)
  have hq : (700 : ℚ) ≤ (pyRoundInt (q * 1000) : ℚ) := by exact_mod_cast hpr
  rw [round3]
  linarith

/-- Helper: the argmax of a four-element score row is in range and its
score dominates every entry (`np.argmax` keeps the first maximum). -/
lemma argmaxAux4 (a b c d : ℚ) :
    argmaxAux 1 0 a [b, c, d] < 4 ∧
    ∀ j, j < 4 →
      [a, b, c, d].getD j 0 ≤ [a, b, c, d].getD (argmaxAux 1 0 a [b, c, d]) 0 := by
  simp only [argmaxAux]
  split_ifs <;>
    refine ⟨by norm_num, ?_⟩ <;>
    (intro j hj
     interval_cases j <;> simp [List.getD] <;> linarith)

/-- Helper: on any four-element score row the response assembly
succeeds, the argmax index is in range and maximal, and every field of
the body is determined by the embedding of lines 225-249 of app.py. -/
lemma computeResponse_ok4 (a b c d : ℚ) :
    ∃ k body,
      argmaxIdx [a, b, c, d] = some k ∧ k < 4 ∧
      (∀ j, j < 4 → [a, b, c, d].getD j 0 ≤ [a, b, c, d].getD k 0) ∧
      computeResponse [a, b, c, d] = Except.ok body ∧
      diseaseClass? k = some body.disease ∧
      body.confidence = round3 ([a, b, c, d].getD k 0) ∧
      body.severity = get_severity_level ([a, b, c, d].getD k 0) body.disease ∧
      body.description = get_disease_description body.disease ∧
      body.nanoparticles = get_nanoparticle_recommendations body.disease ∧
      body.all_predictions =
        [("Healthy", round3 a), ("Northern Corn Leaf Blight", round3 b),
         ("Common Rust", round3 c), ("Gray Leaf Spot", round3 d)] := by
  obtain ⟨hk4, hmax⟩ := argmaxAux4 a b c d
  obtain ⟨k, hk⟩ : ∃ k, argmaxAux 1 0 a [b, c, d] = k := ⟨_, rfl⟩
  rw [hk] at hk4 hmax
  have hidx : argmaxIdx [a, b, c, d] = some k := by rw [← hk]; rfl
  interval_cases k
  · refine ⟨0, ⟨"Healthy", round3 a, get_severity_level a "Healthy",
      get_disease_description "Healthy", get_nanoparticle_recommendations "Healthy",
      [("Healthy", round3 a), ("Northern Corn Leaf Blight", round3 b),
       ("Common Rust", round3 c), ("Gray Leaf Spot", round3 d)]⟩,
      hidx, by norm_num, hmax, ?_, rfl, rfl, rfl, rfl, rfl, rfl⟩
    simp only [computeResponse, hidx]
    rfl
  · refine ⟨1, ⟨"Northern Corn Leaf Blight", round3 b,
      get_severity_level b "Northern Corn Leaf Blight",
      get_disease_description "Northern Corn Leaf Blight",
      get_nanoparticle_recommendations "Northern Corn Leaf Blight",
      [("Healthy", round3 a), ("Northern Corn Leaf Blight", round3 b),
       ("Common Rust", round3 c), ("Gray Leaf Spot", round3 d)]⟩,
      hidx, by norm_num, hmax, ?_, rfl, rfl, rfl, rfl, rfl, rfl⟩
    simp only [computeResponse, hidx]
    rfl
  · refine ⟨2, ⟨"Common Rust", round3 c, get_severity_level c "Common Rust",
      get_disease_description "Common Rust", get_nanoparticle_recommendations "Common Rust",
      [("Healthy", round3 a), ("Northern Corn Leaf Blight", round3 b),
       ("Common Rust", round3 c), ("Gray Leaf Spot", round3 d)]⟩,
      hidx, by norm_num, hmax, ?_, rfl, rfl, rfl, rfl, rfl, rfl⟩
    simp only [computeResponse, hidx]
    rfl
  · refine ⟨3, ⟨"Gray Leaf Spot", round3 d, get_severity_level d "Gray Leaf Spot",
      get_disease_description "Gray Leaf Spot", get_nanoparticle_recommendations "Gray Leaf Spot",
      [("Healthy", round3 a), ("Northern Corn Leaf Blight", round3 b),
       ("Common Rust", round3 c), ("Gray Leaf Spot", round3 d)]⟩,
      hidx, by norm_num, hmax, ?_, rfl, rfl, rfl, rfl, rfl, rfl⟩
    simp only [computeResponse, hidx]
    rfl

/-- Helper: the success path of `predict_disease` with a loaded model. -/
lemma predict_success_path {β : Type} (io : β → Except String PILImage)
    (cv : PILImage → RGBImage) (rz : RGBImage → Nat × Nat → RGBImage)
    (m : Classifier) (dr : MockDraws) (req : PredictRequest β)
    (file : UploadedFile β) (img : PILImage) (scores : List ℚ) (body : SuccessBody)
    (hreq : req.image = some file) (hfn : file.filename ≠ [])
    (hext : allowed_file file.filename = true)
    (hopen : io file.content = Except.ok img)
    (hm : m (preprocess_image cv rz img (224, 224)) = Except.ok scores)
    (hcr : computeResponse scores = Except.ok body) :
    predict_disease io cv rz (some m) dr req =
      ⟨200, RespBody.success body, true, true⟩ := by
  simp [predict_disease, hreq, hfn, hext, hopen, hm, hcr]

/-- Helper: the mock path of `predict_disease` with no model loaded. -/
lemma predict_mock_path {β : Type} (io : β → Except String PILImage)
    (cv : PILImage → RGBImage) (rz : RGBImage → Nat × Nat → RGBImage)
    (dr : MockDraws) (req : PredictRequest β)
    (file : UploadedFile β) (img : PILImage) (body : SuccessBody)
    (hreq : req.image = some file) (hfn : file.filename ≠ [])
    (hext : allowed_file file.filename = true)
    (hopen : io file.content = Except.ok img)
    (hcr : computeResponse (mock_prediction dr) = Except.ok body) :
    predict_disease io cv rz none dr req =
      ⟨200, RespBody.success body, true, false⟩ := by
  simp [predict_disease, hreq, hfn, hext, hopen, hcr]

/-- C2: for every length-4 classifier output, the response assembly
succeeds; the `disease` field is the class name at the argmax index,
`confidence` is the maximal score rounded to 3 decimals,
`all_predictions` lists all four class names with their rounded scores,
and a valid request served by a model producing those scores yields
exactly this body with HTTP 200. -/
theorem predict_argmax_spec (a b c d : ℚ) :
    ∃ k body,
      argmaxIdx [a, b, c, d] = some k ∧
      computeResponse [a, b, c, d] = Except.ok body ∧
      diseaseClass? k = some body.disease ∧
      body.confidence = round3 ([a, b, c, d].getD k 0) ∧
      (∀ j, j < 4 → [a, b, c, d].getD j 0 ≤ [a, b, c, d].getD k 0) ∧
      body.all_predictions =
        [("Healthy", round3 a), ("Northern Corn Leaf Blight", round3 b),
         ("Common Rust", round3 c), ("Gray Leaf Spot", round3 d)] ∧
      (∀ (β : Type) (io : β → Except String PILImage) (cv : PILImage → RGBImage)
         (rz : RGBImage → Nat × Nat → RGBImage) (m : Classifier) (dr : MockDraws)
         (req : PredictRequest β) (file : UploadedFile β) (img : PILImage),
         req.image = some file → file.filename ≠ [] →
         allowed_file file.filename = true →
         io file.content = Except.ok img →
         m (preprocess_image cv rz img (224, 224)) = Except.ok [a, b, c, d] →
         predict_disease io cv rz (some m) dr req =
           ⟨200, RespBody.success body, true, true⟩) := by
  obtain ⟨k, body, hidx, hk4, hmax, hcr, hdc, hconf, hsev, hdesc, hnano, hap⟩ :=
    computeResponse_ok4 a b c d
  refine ⟨k, body, hidx, hcr, hdc, hconf, hmax, hap, ?_⟩
  intro β io cv rz m dr req file img hreq hfn hext hopen hm
  exact predict_success_path io cv rz m dr req file img _ body hreq hfn hext hopen hm hcr

/-- C2 witness: a concrete model output served through the handler. -/
theorem predict_argmax_spec_witness :
    ∃ body, predict_disease sampleOpen sampleConvert sampleResize (some sampleModel)
      sampleDraws sampleReq = ⟨200, RespBody.success body, true, true⟩ := by
  obtain ⟨k, body, -, -, -, -, -, -, hpred⟩ :=
    predict_argmax_spec (1/10) (9/10) (1/20) (1/50)
  exact ⟨body, hpred Unit sampleOpen sampleConvert sampleResize sampleModel sampleDraws
    sampleReq sampleFile samplePIL rfl (by decide) (by decide) rfl rfl⟩

/-- C3: a missing `image` field, an empty filename, or a disallowed
extension each yield HTTP 400 with an error body, without invoking the
decoder or the classifier. -/
theorem upload_validation_spec {β : Type} (io : β → Except String PILImage)
    (cv : PILImage → RGBImage) (rz : RGBImage → Nat × Nat → RGBImage)
    (model : Option Classifier) (dr : MockDraws) (req : PredictRequest β) :
    (req.image = none →
      predict_disease io cv rz model dr req =
        ⟨400, RespBody.error "No image file provided", false, false⟩) ∧
    (∀ file, req.image = some file → file.filename = [] →
      predict_disease io cv rz model dr req =
        ⟨400, RespBody.error "No file selected", false, false⟩) ∧
    (∀ file, req.image = some file → file.filename ≠ [] →
      allowed_file file.filename = false →
      predict_disease io cv rz model dr req =
        ⟨400, RespBody.error "Invalid file type. Please upload PNG, JPG, JPEG, or GIF",
         false, false⟩) := by
  refine ⟨fun h => by simp [predict_disease, h],
    fun file h hfn => by simp [predict_disease, h, hfn],
    fun file h hfn hext => by simp [predict_disease, h, hfn, hext]⟩

/-- C3 witness: the three validation failures on concrete requests. -/
theorem upload_validation_spec_witness :
    (predict_disease sampleOpen sampleConvert sampleResize none sampleDraws
      (⟨none⟩ : PredictRequest Unit) =
        ⟨400, RespBody.error "No image file provided", false, false⟩) ∧
    (predict_disease sampleOpen sampleConvert sampleResize none sampleDraws
      (⟨some ⟨[], ()⟩⟩ : PredictRequest Unit) =
        ⟨400, RespBody.error "No file selected", false, false⟩) ∧
    (predict_disease sampleOpen sampleConvert sampleResize none sampleDraws
      (⟨some ⟨"leaf.bmp".toList, ()⟩⟩ : PredictRequest Unit) =
        ⟨400, RespBody.error "Invalid file type. Please upload PNG, JPG, JPEG, or GIF",
         false, false⟩) :=
  ⟨(upload_validation_spec sampleOpen sampleConvert sampleResize none sampleDraws
      ⟨none⟩).1 rfl,
   (upload_validation_spec sampleOpen sampleConvert sampleResize none sampleDraws
      ⟨some ⟨[], ()⟩⟩).2.1 ⟨[], ()⟩ rfl rfl,
   (upload_validation_spec sampleOpen sampleConvert sampleResize none sampleDraws
      ⟨some ⟨"leaf.bmp".toList, ()⟩⟩).2.2 ⟨"leaf.bmp".toList, ()⟩ rfl (by decide) (by decide)⟩

/-- C4 counterexample: a valid upload whose decode fails is answered
with HTTP 400, not the HTTP 500 the claim requires. -/
theorem decode_error_not_500_counterexample :
    predict_disease sampleOpenFail sampleConvert sampleResize none sampleDraws sampleReq =
      ⟨400, RespBody.error "Error processing image: cannot identify image file",
       true, false⟩ ∧
    (predict_disease sampleOpenFail sampleConvert sampleResize none sampleDraws
      sampleReq).status ≠ 500 := by
  exact ⟨by decide, by decide⟩

/-- C4 (amended): after validation, a decode failure is caught and
surfaced as HTTP 400 with the error text in an error body, and an
inference failure as HTTP 500 with the error text in an error body; in
both cases the request terminates with that single error response. -/
theorem decode_and_inference_error_spec {β : Type} (io : β → Except String PILImage)
    (cv : PILImage → RGBImage) (rz : RGBImage → Nat × Nat → RGBImage)
    (model : Option Classifier) (dr : MockDraws) (req : PredictRequest β)
    (file : UploadedFile β)
    (hreq : req.image = some file) (hfn : file.filename ≠ [])
    (hext : allowed_file file.filename = true) :
    (∀ e, io file.content = Except.error e →
      predict_disease io cv rz model dr req =
        ⟨400, RespBody.error ("Error processing image: " ++ e), true, false⟩) ∧
    (∀ m img e, model = some m → io file.content = Except.ok img →
      m (preprocess_image cv rz img (224, 224)) = Except.error e →
      predict_disease io cv rz model dr req =
        ⟨500, RespBody.error ("Error during prediction: " ++ e), true, true⟩) := by
  constructor
  · intro e he
    simp [predict_disease, hreq, hfn, hext, he]
  · intro m img e hm hio hme
    subst hm
    simp [predict_disease, hreq, hfn, hext, hio, hme]

/-- C4 witness: a concrete decode failure and a concrete inference
failure. -/
theorem decode_and_inference_error_spec_witness :
    predict_disease sampleOpenFail sampleConvert sampleResize (some sampleModelFail)
      sampleDraws sampleReq =
      ⟨400, RespBody.error "Error processing image: cannot identify image file",
       true, false⟩ ∧
    predict_disease sampleOpen sampleConvert sampleResize (some sampleModelFail)
      sampleDraws sampleReq =
      ⟨500, RespBody.error "Error during prediction: tensor shape mismatch",
       true, true⟩ :=
  ⟨(decode_and_inference_error_spec sampleOpenFail sampleConvert sampleResize
      (some sampleModelFail) sampleDraws sampleReq sampleFile rfl (by decide)
      (by decide)).1 "cannot identify image file" rfl,
   (decode_and_inference_error_spec sampleOpen sampleConvert sampleResize
      (some sampleModelFail) sampleDraws sampleReq sampleFile rfl (by decide)
      (by decide)).2 sampleModelFail samplePIL "tensor shape mismatch" rfl rfl rfl⟩

/-- C6: with no model loaded, a valid request is served by substituting
the mock prediction — the handler returns HTTP 200 with the mock-derived
success body and never a model-unavailable error — and `GET /` reports
`model_loaded = false`. -/
theorem mock_fallback_spec {β : Type} (io : β → Except String PILImage)
    (cv : PILImage → RGBImage) (rz : RGBImage → Nat × Nat → RGBImage)
    (dr : MockDraws) (req : PredictRequest β) (file : UploadedFile β) (img : PILImage)
    (hreq : req.image = some file) (hfn : file.filename ≠ [])
    (hext : allowed_file file.filename = true)
    (hopen : io file.content = Except.ok img) :
    (∃ body, computeResponse (mock_prediction dr) = Except.ok body ∧
      predict_disease io cv rz none dr req =
        ⟨200, RespBody.success body, true, false⟩) ∧
    (home none).model_loaded = false := by
  have hrange : mock_prediction dr =
      [if 0 = dr.class_idx then dr.confidence else dr.other 0,
       if 1 = dr.class_idx then dr.confidence else dr.other 1,
       if 2 = dr.class_idx then dr.confidence else dr.other 2,
       if 3 = dr.class_idx then dr.confidence else dr.other 3] := rfl
  obtain ⟨k, body, -, -, -, hcr, -, -, -, -, -, -⟩ := computeResponse_ok4
    (if 0 = dr.class_idx then dr.confidence else dr.other 0)
    (if 1 = dr.class_idx then dr.confidence else dr.other 1)
    (if 2 = dr.class_idx then dr.confidence else dr.other 2)
    (if 3 = dr.class_idx then dr.confidence else dr.other 3)
  rw [← hrange] at hcr
  exact ⟨⟨body, hcr,
    predict_mock_path io cv rz dr req file img body hreq hfn hext hopen hcr⟩, rfl⟩

/-- C6 witness: the mock fallback on a concrete valid request. -/
theorem mock_fallback_spec_witness :
    (∃ body, computeResponse (mock_prediction sampleDraws) = Except.ok body ∧
      predict_disease sampleOpen sampleConvert sampleResize none sampleDraws sampleReq =
        ⟨200, RespBody.success body, true, false⟩) ∧
    (home none).model_loaded = false :=
  mock_fallback_spec sampleOpen sampleConvert sampleResize sampleDraws sampleReq
    sampleFile samplePIL rfl (by decide) (by decide) rfl

/-- Helper: on a four-element row, an index whose score strictly
dominates all others is the argmax. -/
lemma argmaxIdx4_eq_of_strict (a b c d : ℚ) (k : Nat) (hk : k < 4)
    (hdom : ∀ j, j < 4 → j ≠ k →
      [a, b, c, d].getD j 0 < [a, b, c, d].getD k 0) :
    argmaxIdx [a, b, c, d] = some k := by
  obtain ⟨hk4, hmax⟩ := argmaxAux4 a b c d
  have hkk : argmaxAux 1 0 a [b, c, d] = k := by
    by_contra hne
    have h1 := hdom _ hk4 hne
    have h2 := hmax k hk
    linarith
  show some (argmaxAux 1 0 a [b, c, d]) = some k
  rw [hkk]

/-- Helper: a four-element row whose entry at `k` strictly dominates
and is at least 0.7 yields a response whose rounded confidence is at
least 0.7 and whose severity is never Low for a non-Healthy disease. -/
lemma mock_body_props (e0 e1 e2 e3 : ℚ) (k : Nat) (hk : k < 4)
    (hconf : (0.7 : ℚ) ≤ [e0, e1, e2, e3].getD k 0)
    (hdom : ∀ j, j < 4 → j ≠ k →
      [e0, e1, e2, e3].getD j 0 < [e0, e1, e2, e3].getD k 0) :
    argmaxIdx [e0, e1, e2, e3] = some k ∧
    ∃ body, computeResponse [e0, e1, e2, e3] = Except.ok body ∧
      (0.7 : ℚ) ≤ body.confidence ∧
      (body.disease ≠ "Healthy" → body.severity ≠ "Low") := by
  have hidx := argmaxIdx4_eq_of_strict e0 e1 e2 e3 k hk hdom
  obtain ⟨k', body, hidx', hk4', hmax', hcr, hdc, hconf', hsev, -, -, -⟩ :=
    computeResponse_ok4 e0 e1 e2 e3
  have hkk : k' = k := by
    rw [hidx] at hidx'
    exact (Option.some.inj hidx').symm
  subst hkk
  refine ⟨hidx, body, hcr, ?_, ?_⟩
  · rw [hconf']
    exact round3_ge_07 _ hconf
  · intro hd
    rw [hsev]
    unfold get_severity_level
    split_ifs with hA hB hC
    · exact absurd hA hd
    · decide
    · decide
    · exfalso
      rw [ge_iff_le, not_le] at hC
      linarith

/-- C10: for every value of the mock predictor's random draws within
their documented ranges, the chosen class's score strictly exceeds
every other score, the argmax is the chosen index, the response's
reported confidence is at least 0.7, and a non-Healthy mock prediction
never has severity Low. -/
theorem mock_prediction_argmax_spec (dr : MockDraws) (hidx4 : dr.class_idx ≤ 3)
    (hc1 : (0.7 : ℚ) ≤ dr.confidence) (hc2 : dr.confidence ≤ 0.98)
    (ho : ∀ i, (0.01 : ℚ) ≤ dr.other i ∧ dr.other i ≤ 0.3) :
    (∀ j, j < 4 → j ≠ dr.class_idx →
      (mock_prediction dr).getD j 0 < (mock_prediction dr).getD dr.class_idx 0) ∧
    argmaxIdx (mock_prediction dr) = some dr.class_idx ∧
    ∃ body, computeResponse (mock_prediction dr) = Except.ok body ∧
      (0.7 : ℚ) ≤ body.confidence ∧
      (body.disease ≠ "Healthy" → body.severity ≠ "Low") := by
  have hrange : mock_prediction dr =
      [if 0 = dr.class_idx then dr.confidence else dr.other 0,
       if 1 = dr.class_idx then dr.confidence else dr.other 1,
       if 2 = dr.class_idx then dr.confidence else dr.other 2,
       if 3 = dr.class_idx then dr.confidence else dr.other 3] := rfl
  obtain ⟨c, hcdef⟩ : ∃ c, dr.class_idx = c := ⟨_, rfl⟩
  rw [hcdef] at hidx4 hrange ⊢
  interval_cases c
  · have hm : mock_prediction dr =
        [dr.confidence, dr.other 1, dr.other 2, dr.other 3] := by
      simpa using hrange
    rw [hm]
    have hdom : ∀ j, j < 4 → j ≠ 0 →
        [dr.confidence, dr.other 1, dr.other 2, dr.other 3].getD j 0 <
        [dr.confidence, dr.other 1, dr.other 2, dr.other 3].getD 0 0 := by
      intro j hj hne
      interval_cases j
      · exact absurd rfl hne
      · have := (ho 1).2
        simp only [List.getD]
        simp
        linarith
      · have := (ho 2).2
        simp only [List.getD]
        simp
        linarith
      · have := (ho 3).2
        simp only [List.getD]
        simp
        linarith
    obtain ⟨hidx, hbody⟩ := mock_body_props _ _ _ _ 0 (by norm_num) (by simpa using hc1) hdom
    exact ⟨hdom, hidx, hbody⟩
  · have hm : mock_prediction dr =
        [dr.other 0, dr.confidence, dr.other 2, dr.other 3] := by
      simpa using hrange
    rw [hm]
    have hdom : ∀ j, j < 4 → j ≠ 1 →
        [dr.other 0, dr.confidence, dr.other 2, dr.other 3].getD j 0 <
        [dr.other 0, dr.confidence, dr.other 2, dr.other 3].getD 1 0 := by
      intro j hj hne
      interval_cases j
      · have := (ho 0).2
        simp only [List.getD]
        simp
        linarith
      · exact absurd rfl hne
      · have := (ho 2).2
        simp only [List.getD]
        simp
        linarith
      · have := (ho 3).2
        simp only [List.getD]
        simp
        linarith
    obtain ⟨hidx, hbody⟩ := mock_body_props _ _ _ _ 1 (by norm_num) (by simpa using hc1) hdom
    exact ⟨hdom, hidx, hbody⟩
  · have hm : mock_prediction dr =
        [dr.other 0, dr.other 1, dr.confidence, dr.other 3] := by
      simpa using hrange
    rw [hm]
    have hdom : ∀ j, j < 4 → j ≠ 2 →
        [dr.other 0, dr.other 1, dr.confidence, dr.other 3].getD j 0 <
        [dr.other 0, dr.other 1, dr.confidence, dr.other 3].getD 2 0 := by
      intro j hj hne
      interval_cases j
      · have := (ho 0).2
        simp only [List.getD]
        simp
        linarith
      · have := (ho 1).2
        simp only [List.getD]
        simp
        linarith
      · exact absurd rfl hne
      · have := (ho 3).2
        simp only [List.getD]
        simp
        linarith
    obtain ⟨hidx, hbody⟩ := mock_body_props _ _ _ _ 2 (by norm_num) (by simpa using hc1) hdom
    exact ⟨hdom, hidx, hbody⟩
  · have hm : mock_prediction dr =
        [dr.other 0, dr.other 1, dr.other 2, dr.confidence] := by
      simpa using hrange
    rw [hm]
    have hdom : ∀ j, j < 4 → j ≠ 3 →
        [dr.other 0, dr.other 1, dr.other 2, dr.confidence].getD j 0 <
        [dr.other 0, dr.other 1, dr.other 2, dr.confidence].getD 3 0 := by
      intro j hj hne
      interval_cases j
      · have := (ho 0).2
        simp only [List.getD]
        simp
        linarith
      · have := (ho 1).2
        simp only [List.getD]
        simp
        linarith
      · have := (ho 2).2
        simp only [List.getD]
        simp
        linarith
      · exact absurd rfl hne
    obtain ⟨hidx, hbody⟩ := mock_body_props _ _ _ _ 3 (by norm_num) (by simpa using hc1) hdom
    exact ⟨hdom, hidx, hbody⟩

/-- C10 witness: the mock guarantee at concrete draws. -/
theorem mock_prediction_argmax_spec_witness :
    (∀ j, j < 4 → j ≠ sampleDraws.class_idx →
      (mock_prediction sampleDraws).getD j 0 <
      (mock_prediction sampleDraws).getD sampleDraws.class_idx 0) ∧
    argmaxIdx (mock_prediction sampleDraws) = some sampleDraws.class_idx ∧
    ∃ body, computeResponse (mock_prediction sampleDraws) = Except.ok body ∧
      (0.7 : ℚ) ≤ body.confidence ∧
      (body.disease ≠ "Healthy" → body.severity ≠ "Low") :=
  mock_prediction_argmax_spec sampleDraws (by decide)
    (by norm_num [sampleDraws]) (by norm_num [sampleDraws])
    (fun i => by constructor <;> norm_num [sampleDraws])

/-- C7: for every decodable image (any color mode) and any resize
primitive honouring the target size, the preprocessing output is a
tensor of shape [1, 224, 224, 3] whose every channel value lies in
[0, 1]; `preprocess_image` is a pure transform. -/
theorem preprocess_shape_range_spec (convert : PILImage → RGBImage)
    (resize : RGBImage → Nat × Nat → RGBImage) (image : PILImage)
    (hresize : ∀ im sz, (resize im sz).rows.length = sz.2 ∧
      ∀ row ∈ (resize im sz).rows, row.length = sz.1) :
    (preprocess_image convert resize image (224, 224)).length = 1 ∧
    ∀ plane ∈ preprocess_image convert resize image (224, 224),
      plane.length = 224 ∧
      ∀ row ∈ plane, row.length = 224 ∧
        ∀ v ∈ row, 0 ≤ v.1 ∧ v.1 ≤ 1 ∧ 0 ≤ v.2.1 ∧ v.2.1 ≤ 1 ∧
          0 ≤ v.2.2 ∧ v.2.2 ≤ 1 := by
  refine ⟨rfl, ?_⟩
  intro plane hplane
  have hpl : plane = normalizeRows
      (resize (if image.mode ≠ "RGB" then convert image else image.rgb)
        (224, 224)).rows := by
    simpa [preprocess_image] using hplane
  subst hpl
  obtain ⟨hlen, hrows⟩ :=
    hresize (if image.mode ≠ "RGB" then convert image else image.rgb) (224, 224)
  constructor
  · simpa [normalizeRows] using hlen
  · intro row hrow
    rw [normalizeRows, List.mem_map] at hrow
    obtain ⟨row₀, hrow₀, rfl⟩ := hrow
    constructor
    · simpa using hrows row₀ hrow₀
    · intro v hv
      rw [List.mem_map] at hv
      obtain ⟨p, -, rfl⟩ := hv
      have b1 : (p.1 : ℚ) ≤ 255 := by
        have := p.1.isLt
        exact_mod_cast Nat.lt_succ_iff.mp (by exact_mod_cast this)
      have b2 : (p.2.1 : ℚ) ≤ 255 := by
        have := p.2.1.isLt
        exact_mod_cast Nat.lt_succ_iff.mp (by exact_mod_cast this)
      have b3 : (p.2.2 : ℚ) ≤ 255 := by
        have := p.2.2.isLt
        exact_mod_cast Nat.lt_succ_iff.mp (by exact_mod_cast this)
      have n1 : (0 : ℚ) ≤ (p.1 : ℚ) := by positivity
      have n2 : (0 : ℚ) ≤ (p.2.1 : ℚ) := by positivity
      have n3 : (0 : ℚ) ≤ (p.2.2 : ℚ) := by positivity
      refine ⟨by positivity, by linarith, by positivity, by linarith,
        by positivity, by linarith⟩

/-- C7 witness: the shape and range guarantee at concrete instances of
the PIL primitives. -/
theorem preprocess_shape_range_spec_witness :
    (preprocess_image sampleConvert sampleResize samplePIL (224, 224)).length = 1 ∧
    ∀ plane ∈ preprocess_image sampleConvert sampleResize samplePIL (224, 224),
      plane.length = 224 ∧
      ∀ row ∈ plane, row.length = 224 ∧
        ∀ v ∈ row, 0 ≤ v.1 ∧ v.1 ≤ 1 ∧ 0 ≤ v.2.1 ∧ v.2.1 ≤ 1 ∧
          0 ≤ v.2.2 ∧ v.2.2 ≤ 1 :=
  preprocess_shape_range_spec sampleConvert sampleResize samplePIL (by
    intro im sz
    constructor
    · simp [sampleResize]
    · intro row hrow
      rw [sampleResize] at hrow
      simp only [List.mem_replicate] at hrow
      simp [hrow.2])

end CornCare
